import Mathlib

/-!
Verification development for the Local-Model AI-Powered Image Description
client.  The repository has two logical components:

* the Image Codec (`fileToImageInfo` in the uploader component), which turns
  a data URL produced by reading the selected file into an `ImageInfo`
  record, and
* the Description Client (`generateDescriptionFromImage` in
  `services/ollamaService.ts`), which sends one POST request to the local
  Ollama endpoint and classifies the outcome.

Strings are modelled as `List Char`; the network is modelled by an abstract
`FetchOutcome` argument describing what the single `fetch` call does.  All
JavaScript-specific behaviour relevant to the claims is modelled explicitly:
the lazy regular-expression match on the data-URL header (which does not let
`.` cross a line terminator), `String.prototype.split` keeping empty
segments, template-literal interpolation of a missing field printing the
text `undefined`, and a property access on the JSON value `null` throwing a
`TypeError`.
-/

namespace Visionary

/-- The information about an uploaded image (`types.ts`).  `base64Data` is
an `Option` because the destructuring `const [header, base64Data] =
dataUrl.split(',')` leaves it `undefined` when the data URL has no comma,
and the code still resolves in that case. -/
structure ImageInfo where
  base64Data : Option (List Char)
  mimeType : List Char
  previewUrl : List Char
deriving DecidableEq, Repr

/-! ## Image Codec: `fileToImageInfo` (components.tsx) -/

/-- `String.prototype.split(',')`: splits at every comma, keeping empty
segments, always returning at least one segment. -/
def splitOnComma : List Char → List (List Char)
  | [] => [[]]
  | c :: cs =>
    if c = ',' then [] :: splitOnComma cs
    else
      match splitOnComma cs with
      | [] => [[c]]
      | s :: rest => (c :: s) :: rest

/-- JavaScript line terminators, which `.` in a regular expression does not
match. -/
def isLineTerm (c : Char) : Bool :=
  c = '\n' || c = '\r' || c = '\u2028' || c = '\u2029'

/-- The attempt of the lazy group `(.*?);` at one position: consume
characters (none of which may be a line terminator) up to the first
semicolon; fail if no semicolon is reachable. -/
def takeUntilSemi : List Char → Option (List Char)
  | [] => none
  | c :: cs =>
    if c = ';' then some []
    else if isLineTerm c then none
    else (takeUntilSemi cs).map (c :: ·)

/-- The match of the regular expression `:(.*?);` against a string: the
leftmost position holding a colon from which the lazy group succeeds; the
returned value is the captured group. -/
def matchColonSemi : List Char → Option (List Char)
  | [] => none
  | c :: cs =>
    if c = ':' then
      match takeUntilSemi cs with
      | some cap => some cap
      | none => matchColonSemi cs
    else matchColonSemi cs

/-- The rejection message of the codec when the header has no usable MIME
envelope. -/
def decodeErrorMsg : List Char := "Could not determine image MIME type.".data

/-- The string-processing core of `fileToImageInfo`: given the data URL
obtained from `FileReader.readAsDataURL`, split it at commas, take the first
segment as header and the second (possibly absent) as payload, and extract
the MIME type from the header with `/:(.*?);/`; reject when there is no
match or the captured group is empty (the read-failure paths of the
surrounding `Promise` are outside this model). -/
def fileToImageInfo (dataUrl : List Char) : Except (List Char) ImageInfo :=
  let parts := splitOnComma dataUrl
  let header := parts.headD []
  let base64Data := parts[1]?
  match matchColonSemi header with
  | none => .error decodeErrorMsg
  | some mime =>
    if mime.isEmpty then .error decodeErrorMsg
    else .ok { base64Data := base64Data, mimeType := mime, previewUrl := dataUrl }

/-- A well-formed image data URL assembled from a MIME type and a base64
payload, as produced by `FileReader.readAsDataURL`. -/
def encodeDataUrl (mime data : List Char) : List Char :=
  "data:".data ++ mime ++ ";base64,".data ++ data

/-! ## Description Client: `generateDescriptionFromImage`
(services/ollamaService.ts) -/

/-- The URL of the Ollama API endpoint. -/
def OLLAMA_API_URL : List Char := "http://localhost:11434/api/generate".data

/-- The name of the model to use for generating descriptions. -/
def OLLAMA_MODEL : List Char := "llava".data

/-- The fixed instruction prompt. -/
def promptText : List Char :=
  "Describe this image in detail. What objects are present? What is the setting? What actions are taking place? What is the overall mood or feeling of the image?".data

/-- The JSON body sent to the endpoint. -/
structure RequestBody where
  model : List Char
  prompt : List Char
  images : List (Option (List Char))
  stream : Bool
deriving DecidableEq, Repr

/-- One HTTP request as issued by `fetch`. -/
structure FetchRequest where
  url : List Char
  method : List Char
  contentTypeHeader : List Char
  body : RequestBody
deriving DecidableEq, Repr

/-- The JSON values the client inspects: `null`, or an object with the two
fields the code ever reads (`error` and `response`), each possibly absent. -/
inductive Json where
  | null : Json
  | obj (errField : Option (List Char)) (respField : Option (List Char)) : Json
deriving DecidableEq, Repr

/-- A thrown JavaScript value as classified by the `catch` block: a
`TypeError`, some other `Error` carrying a message, or a thrown value that
is not an `Error` at all. -/
inductive JsError where
  | typeError (msg : List Char) : JsError
  | jsError (msg : List Char) : JsError
  | nonError : JsError
deriving DecidableEq, Repr

/-- What the single `fetch` call does: either resolve with a response
carrying an HTTP status and the result of `response.json()` (`.error` is an
unparseable body, carrying the parse failure's message), or reject with a
thrown value. -/
inductive FetchOutcome where
  | resp (status : Nat) (jsonResult : Except (List Char) Json) : FetchOutcome
  | reject (e : JsError) : FetchOutcome

/-- `Response.ok`: status in the inclusive range 200–299. -/
def statusOk (status : Nat) : Bool := 200 ≤ status && status ≤ 299

/-- Reading the `error` property of a parsed JSON value; on `null` this
throws a `TypeError`. -/
def jsGetErrorField : Json → Except JsError (Option (List Char))
  | .null => .error (.typeError "Cannot read properties of null (reading error)".data)
  | .obj e _ => .ok e

/-- Reading the `response` property of a parsed JSON value; on `null` this
throws a `TypeError`. -/
def jsGetResponseField : Json → Except JsError (Option (List Char))
  | .null => .error (.typeError "Cannot read properties of null (reading response)".data)
  | .obj _ r => .ok r

/-- Template-literal interpolation of a possibly-absent field: a missing
field prints as the text `undefined`. -/
def interpUndef : Option (List Char) → List Char
  | some s => s
  | none => "undefined".data

/-- Decimal rendering of the HTTP status, as `${response.status}` prints
it. -/
def natToChars (n : Nat) : List Char := (Nat.repr n).data

/-- The placeholder substituted when the error body is not parseable. -/
def parsePlaceholderMsg : List Char := "Could not parse error response.".data

/-- The message of the error thrown on a non-success status. -/
def serverErrorMsg (status : Nat) (errField : Option (List Char)) : List Char :=
  "Ollama API request failed with status ".data ++ natToChars status ++
    ". Message: ".data ++ interpUndef errField ++
    ". Make sure Ollama is running and the '".data ++ OLLAMA_MODEL ++
    "' model is installed.".data

/-- The message of the error thrown on an empty description. -/
def emptyResponseMsg : List Char := "The Ollama API returned an empty description.".data

/-- The connectivity guidance thrown when the caught value is a
`TypeError`. -/
def connectivityMsg : List Char :=
  "Could not connect to the Ollama server. \n1. Is it running? \n2. Are you getting a CORS error? If so, you must restart the Ollama server with permissions for web apps. Try running this command in your terminal: \n OLLAMA_ORIGINS='*' ollama serve".data

/-- The generic message thrown when the caught value is not an `Error`. -/
def genericErrorMsg : List Char :=
  "An unexpected error occurred while communicating with the Ollama API.".data

/-- JavaScript whitespace removed by `String.prototype.trim` (the characters
relevant to this code base). -/
def isWs (c : Char) : Bool := c = ' ' || c = '\t' || c = '\n' || c = '\r'

/-- `String.prototype.trim`: drop whitespace from both ends. -/
def jsTrim (s : List Char) : List Char :=
  ((s.dropWhile isWs).reverse.dropWhile isWs).reverse

/-- The request built by the single `fetch` call. -/
def buildRequest (info : ImageInfo) : FetchRequest :=
  { url := OLLAMA_API_URL
    method := "POST".data
    contentTypeHeader := "application/json".data
    body :=
      { model := OLLAMA_MODEL
        prompt := promptText
        images := [info.base64Data]
        stream := false } }

/-- The body of the `try` block after the `fetch` resolves or rejects:
either the trimmed description, or the thrown value that the `catch` block
will classify.  On a non-success status the body is parsed with a fallback
object `error: Could not parse error response.`, the `error` property is
read (throwing on `null`) and a server-error `Error` is thrown; on a
success status a parse failure is rethrown as is, the `response` property
is read (throwing on `null`), a truthy value is trimmed and returned, and a
falsy one raises the empty-description `Error`. -/
def tryFetch (outcome : FetchOutcome) : Except JsError (List Char) :=
  match outcome with
  | .reject e => .error e
  | .resp status jsonResult =>
    if statusOk status then
      match jsonResult with
      | .error parseMsg => .error (.jsError parseMsg)
      | .ok data =>
        match jsGetResponseField data with
        | .error e => .error e
        | .ok (some (c :: cs)) => .ok (jsTrim (c :: cs))
        | .ok (some []) => .error (.jsError emptyResponseMsg)
        | .ok none => .error (.jsError emptyResponseMsg)
    else
      let errorBody : Json :=
        match jsonResult with
        | .ok j => j
        | .error _ => .obj (some parsePlaceholderMsg) none
      match jsGetErrorField errorBody with
      | .error e => .error e
      | .ok errField => .error (.jsError (serverErrorMsg status errField))

/-- `generateDescriptionFromImage`: builds and issues the one request, runs
the `try` block, and applies the `catch` block's classification: a
`TypeError` becomes the connectivity guidance, any other `Error` is
rethrown with its own message, and a non-`Error` value becomes the generic
message.  Returns the list of requests issued, the list of values passed to
`console.error`, and the overall result. -/
def generateDescriptionFromImage (info : ImageInfo) (outcome : FetchOutcome) :
    List FetchRequest × List JsError × Except (List Char) (List Char) :=
  let req := buildRequest info
  match tryFetch outcome with
  | .ok s => ([req], [], .ok s)
  | .error e =>
    ([req], [e],
      match e with
      | .typeError _ => .error connectivityMsg
      | .jsError m => .error m
      | .nonError => .error genericErrorMsg)

/-! ## App handler: `handleGenerateDescription` (App.tsx) -/

/-- The validation message shown when no image has been uploaded. -/
def validationMsg : List Char := "Please upload an image first.".data

/-- The prefix prepended to the error message shown to the user. -/
def failurePrefixMsg : List Char := "Failed to generate description. ".data

/-- The UI state held by the App component. -/
structure AppState where
  imageInfo : Option ImageInfo
  description : List Char
  isLoading : Bool
  error : Option (List Char)
deriving DecidableEq, Repr

/-- `handleGenerateDescription`: with no image record present, set the
validation message and return without touching the network; otherwise clear
the state, run the Description Client, and record either the description or
the prefixed error message.  Returns the new state and the requests
issued. -/
def handleGenerateDescription (s : AppState) (outcome : FetchOutcome) :
    AppState × List FetchRequest :=
  match s.imageInfo with
  | none => ({ s with error := some validationMsg }, [])
  | some info =>
    let s1 : AppState := { s with isLoading := true, error := none, description := [] }
    let r := generateDescriptionFromImage info outcome
    match r.2.2 with
    | .ok text => ({ s1 with description := text, isLoading := false }, r.1)
    | .error m =>
      ({ s1 with error := some (failurePrefixMsg ++ m), isLoading := false }, r.1)

/-- A sample decoded image record used for concrete instances. -/
def sampleInfo : ImageInfo :=
  { base64Data := some "AAAA".data
    mimeType := "image/png".data
    previewUrl := "data:image/png;base64,AAAA".data }

/-- Substring containment: `occurs needle haystack` is true when `needle`
appears contiguously inside `haystack`. -/
def occurs : List Char → List Char → Bool
  | n, [] => n.isEmpty
  | n, c :: t => n.isPrefixOf (c :: t) || occurs n t

/-! ## Helper lemmas -/

theorem isPrefixOf_self_append (n b : List Char) : n.isPrefixOf (n ++ b) = true := by
  induction n with
  | nil => simp [List.isPrefixOf]
  | cons c cs ih => simp [List.isPrefixOf, ih]

theorem occurs_here (n b : List Char) : occurs n (n ++ b) = true := by
  cases n with
  | nil => cases b <;> simp [occurs, List.isPrefixOf]
  | cons c cs => simp [occurs, isPrefixOf_self_append]

theorem occurs_append_left (a n h : List Char) (hh : occurs n h = true) :
    occurs n (a ++ h) = true := by
  induction a with
  | nil => simpa using hh
  | cons c cs ih => simp [occurs, ih]

theorem occurs_append (a n b : List Char) : occurs n (a ++ (n ++ b)) = true :=
  occurs_append_left a n (n ++ b) (occurs_here n b)

theorem splitOnComma_no_comma (l : List Char) (h : ∀ c ∈ l, c ≠ ',') :
    splitOnComma l = [l] := by
  induction l with
  | nil => rfl
  | cons c cs ih =>
    have hc : c ≠ ',' := h c (by simp)
    have ih2 := ih (fun x hx => h x (by simp [hx]))
    simp [splitOnComma, hc, ih2]

theorem splitOnComma_append (l r : List Char) (h : ∀ c ∈ l, c ≠ ',') :
    splitOnComma (l ++ ',' :: r) = l :: splitOnComma r := by
  induction l with
  | nil => simp [splitOnComma]
  | cons c cs ih =>
    have hc : c ≠ ',' := h c (by simp)
    have ih2 := ih (fun x hx => h x (by simp [hx]))
    simp [splitOnComma, hc, ih2]

theorem takeUntilSemi_append (m r : List Char)
    (h : ∀ c ∈ m, c ≠ ';' ∧ isLineTerm c = false) :
    takeUntilSemi (m ++ ';' :: r) = some m := by
  induction m with
  | nil => simp [takeUntilSemi]
  | cons c cs ih =>
    have hc := h c (by simp)
    have ih2 := ih (fun x hx => h x (by simp [hx]))
    simp [takeUntilSemi, hc.1, hc.2, ih2]

theorem matchColonSemi_skip (p r : List Char) (hp : ∀ c ∈ p, c ≠ ':') :
    matchColonSemi (p ++ r) = matchColonSemi r := by
  induction p with
  | nil => rfl
  | cons c cs ih =>
    have hc : c ≠ ':' := hp c (by simp)
    have ih2 := ih (fun x hx => hp x (by simp [hx]))
    simp [matchColonSemi, hc, ih2]

/-! ## Claims about the Image Codec -/

/-- C1: for every well-formed image data URL `data:<mime>;base64,<data>`
(with a nonempty MIME type free of commas, semicolons and line terminators,
and a payload free of commas, as any base64 payload is), the codec's decode
succeeds and returns a record whose `mimeType` is the MIME type of the
header and whose `base64Data` is the segment after the first comma; in
particular `decode (encode data mime)` yields `contentType = mime`. -/
theorem fileToImageInfo_roundtrip (mime data : List Char)
    (hne : mime ≠ [])
    (hm : ∀ c ∈ mime, c ≠ ',' ∧ c ≠ ';' ∧ isLineTerm c = false)
    (hd : ∀ c ∈ data, c ≠ ',') :
    fileToImageInfo (encodeDataUrl mime data) =
      .ok { base64Data := some data, mimeType := mime,
            previewUrl := encodeDataUrl mime data } := by
  have hB : ";base64,".data = [';', 'b', 'a', 's', 'e', '6', '4', ','] := rfl
  have hA : "data:".data = ['d', 'a', 't', 'a', ':'] := rfl
  have hurl : encodeDataUrl mime data =
      ("data:".data ++ mime ++ [';', 'b', 'a', 's', 'e', '6', '4']) ++ ',' :: data := by
    simp [encodeDataUrl, hB]
  have hcomma : ∀ c ∈ ("data:".data ++ mime ++ [';', 'b', 'a', 's', 'e', '6', '4']), c ≠ ',' := by
    intro c hc
    rw [hA] at hc
    simp only [List.mem_append, List.mem_cons, List.not_mem_nil, or_false] at hc
    rcases hc with (hc | hc) | hc
    · rcases hc with rfl | rfl | rfl | rfl | rfl <;> decide
    · exact (hm c hc).1
    · rcases hc with rfl | rfl | rfl | rfl | rfl | rfl | rfl <;> decide
  have hsplit : splitOnComma (encodeDataUrl mime data) =
      [("data:".data ++ mime ++ [';', 'b', 'a', 's', 'e', '6', '4']), data] := by
    rw [hurl, splitOnComma_append _ _ hcomma, splitOnComma_no_comma data hd]
  have htake : takeUntilSemi (mime ++ [';', 'b', 'a', 's', 'e', '6', '4']) = some mime := by
    have hstep : (mime ++ [';', 'b', 'a', 's', 'e', '6', '4'] : List Char) =
        mime ++ ';' :: ['b', 'a', 's', 'e', '6', '4'] := rfl
    rw [hstep]
    exact takeUntilSemi_append _ _ (fun c hc => ⟨(hm c hc).2.1, (hm c hc).2.2⟩)
  have hmatch : matchColonSemi
      ('d' :: 'a' :: 't' :: 'a' :: ':' :: (mime ++ [';', 'b', 'a', 's', 'e', '6', '4'])) =
      some mime := by
    show matchColonSemi
      (['d', 'a', 't', 'a'] ++ (':' :: (mime ++ [';', 'b', 'a', 's', 'e', '6', '4']))) = some mime
    rw [matchColonSemi_skip _ _ (by intro c hc; fin_cases hc <;> decide)]
    simp [matchColonSemi, htake]
  simp only [fileToImageInfo]
  rw [hsplit]
  simp [hA, hmatch, hne]

/-- Witness for C1 at a concrete MIME type and payload. -/
theorem fileToImageInfo_roundtrip_witness :
    fileToImageInfo (encodeDataUrl "image/png".data "AAAA".data) =
      Except.ok { base64Data := some "AAAA".data, mimeType := "image/png".data,
                  previewUrl := encodeDataUrl "image/png".data "AAAA".data } :=
  fileToImageInfo_roundtrip "image/png".data "AAAA".data (by decide) (by decide) (by decide)

/-- C6: for every data URL whose header segment (the part before the first
comma) has no recognizable `:<mime>;` envelope — the pattern does not match
at all, or the captured MIME type is empty — the codec rejects with the
decode-error message and constructs no record. -/
theorem fileToImageInfo_noEnvelope (dataUrl : List Char)
    (h : matchColonSemi ((splitOnComma dataUrl).headD []) = none ∨
         matchColonSemi ((splitOnComma dataUrl).headD []) = some []) :
    fileToImageInfo dataUrl = .error decodeErrorMsg := by
  rcases h with h | h
  · simp only [fileToImageInfo]
    rw [h]
  · simp only [fileToImageInfo]
    rw [h]
    simp

/-- Witness for C6 at a concrete data URL with no MIME envelope. -/
theorem fileToImageInfo_noEnvelope_witness :
    fileToImageInfo "hello,AAAA".data = Except.error decodeErrorMsg :=
  fileToImageInfo_noEnvelope "hello,AAAA".data (Or.inl (by decide))

/-! ## Claims about the Description Client -/

theorem occurs_serverErrorMsg_status (status : Nat) (e : Option (List Char)) :
    occurs (natToChars status) (serverErrorMsg status e) = true := by
  have h : serverErrorMsg status e =
      "Ollama API request failed with status ".data ++
        (natToChars status ++ (". Message: ".data ++ interpUndef e ++
          ". Make sure Ollama is running and the '".data ++ OLLAMA_MODEL ++
          "' model is installed.".data)) := by
    simp [serverErrorMsg, List.append_assoc]
  rw [h]
  exact occurs_append _ _ _

theorem occurs_serverErrorMsg_field (status : Nat) (m : List Char) :
    occurs m (serverErrorMsg status (some m)) = true := by
  have h : serverErrorMsg status (some m) =
      ("Ollama API request failed with status ".data ++ natToChars status ++
        ". Message: ".data) ++ (m ++
        (". Make sure Ollama is running and the '".data ++ OLLAMA_MODEL ++
          "' model is installed.".data)) := by
    simp [serverErrorMsg, interpUndef, List.append_assoc]
  rw [h]
  exact occurs_append _ _ _

theorem occurs_serverErrorMsg_undef (status : Nat) :
    occurs "undefined".data (serverErrorMsg status none) = true := by
  have h : serverErrorMsg status none =
      ("Ollama API request failed with status ".data ++ natToChars status ++
        ". Message: ".data) ++ ("undefined".data ++
        (". Make sure Ollama is running and the '".data ++ OLLAMA_MODEL ++
          "' model is installed.".data)) := by
    simp [serverErrorMsg, interpUndef, List.append_assoc]
  rw [h]
  exact occurs_append _ _ _

/-- C2: every invocation of the Description Client issues exactly one
request: a POST to the fixed endpoint whose body carries the fixed model
identifier, the fixed instruction prompt, `stream := false`, and an
`images` array holding exactly the record's payload — whatever the network
then does. -/
theorem generateDescription_request (info : ImageInfo) (outcome : FetchOutcome) :
    (generateDescriptionFromImage info outcome).1 =
      [{ url := OLLAMA_API_URL
         method := "POST".data
         contentTypeHeader := "application/json".data
         body := { model := OLLAMA_MODEL, prompt := promptText,
                   images := [info.base64Data], stream := false } }] := by
  cases htf : tryFetch outcome <;> simp [generateDescriptionFromImage, buildRequest, htf]

/-- C3: on a non-success HTTP status, the result is the server-error
message, which contains the decimal status code and the server-supplied
error message when the body parses with one; when the body is not
parseable, the placeholder `Could not parse error response.` is substituted
and the error path still produces the server-error message (it does not
fail). -/
theorem generateDescription_serverError (info : ImageInfo) (status : Nat)
    (m : List Char) (r : Option (List Char)) (parseMsg : List Char)
    (h : statusOk status = false) :
    ((generateDescriptionFromImage info (.resp status (.ok (.obj (some m) r)))).2.2 =
        .error (serverErrorMsg status (some m)) ∧
      occurs (natToChars status) (serverErrorMsg status (some m)) = true ∧
      occurs m (serverErrorMsg status (some m)) = true) ∧
    ((generateDescriptionFromImage info (.resp status (.error parseMsg))).2.2 =
        .error (serverErrorMsg status (some parsePlaceholderMsg)) ∧
      occurs (natToChars status) (serverErrorMsg status (some parsePlaceholderMsg)) = true ∧
      occurs parsePlaceholderMsg (serverErrorMsg status (some parsePlaceholderMsg)) = true) := by
  refine ⟨⟨?_, occurs_serverErrorMsg_status status (some m),
           occurs_serverErrorMsg_field status m⟩,
          ⟨?_, occurs_serverErrorMsg_status status (some parsePlaceholderMsg),
           occurs_serverErrorMsg_field status parsePlaceholderMsg⟩⟩ <;>
    simp [generateDescriptionFromImage, tryFetch, jsGetErrorField, h]

/-- Witness for C3: a 500 response with body `error: model not found`. -/
theorem generateDescription_serverError_witness :
    statusOk 500 = false ∧
    (generateDescriptionFromImage sampleInfo
        (.resp 500 (.ok (.obj (some "model not found".data) none)))).2.2 =
      .error (serverErrorMsg 500 (some "model not found".data)) ∧
    occurs (natToChars 500) (serverErrorMsg 500 (some "model not found".data)) = true ∧
    occurs "model not found".data (serverErrorMsg 500 (some "model not found".data)) = true := by
  have h := generateDescription_serverError sampleInfo 500 "model not found".data none []
    (by decide)
  exact ⟨by decide, h.1.1, h.1.2.1, h.1.2.2⟩

set_option maxRecDepth 16384 in
/-- C4: a transport-level failure (the `fetch` call rejecting with a
`TypeError`, as a refused connection or a cross-origin rejection does)
yields the connectivity message, which names both likely causes (server not
running; CORS) and the exact remediation command, and which differs from
every application-level message. -/
theorem generateDescription_connectivity (info : ImageInfo) (tmsg : List Char) :
    (generateDescriptionFromImage info (.reject (.typeError tmsg))).2.2 =
      .error connectivityMsg ∧
    occurs "OLLAMA_ORIGINS='*' ollama serve".data connectivityMsg = true ∧
    occurs "Is it running?".data connectivityMsg = true ∧
    occurs "CORS".data connectivityMsg = true ∧
    (∀ status e, connectivityMsg ≠ serverErrorMsg status e) ∧
    connectivityMsg ≠ emptyResponseMsg ∧ connectivityMsg ≠ genericErrorMsg := by
  refine ⟨by simp [generateDescriptionFromImage, tryFetch], by decide, by decide, by decide,
    ?_, by decide, by decide⟩
  intro status e h
  have h1 : connectivityMsg.head? = some 'C' := rfl
  have h2 : (serverErrorMsg status e).head? = some 'O' := rfl
  rw [h] at h1
  rw [h1] at h2
  exact absurd h2 (by decide)

/-- C5: invoking the App handler while no image record is present sets the
validation message and issues zero network requests. -/
theorem handleGenerate_validation (s : AppState) (outcome : FetchOutcome)
    (h : s.imageInfo = none) :
    handleGenerateDescription s outcome = ({ s with error := some validationMsg }, []) := by
  simp [handleGenerateDescription, h]

/-- Witness for C5 at a concrete empty state. -/
theorem handleGenerate_validation_witness :
    ({ imageInfo := none, description := [], isLoading := false,
       error := none } : AppState).imageInfo = none ∧
    handleGenerateDescription
        { imageInfo := none, description := [], isLoading := false, error := none }
        (.reject .nonError) =
      ({ imageInfo := none, description := [], isLoading := false,
         error := some validationMsg }, []) := by
  refine ⟨rfl, ?_⟩
  have h := handleGenerate_validation
    { imageInfo := none, description := [], isLoading := false, error := none }
    (.reject .nonError) rfl
  simpa using h

/-- C7: a successful (HTTP 200) response whose description field is the
empty string or absent yields the empty-description error rather than a
returned string. -/
theorem generateDescription_emptyResponse (info : ImageInfo) (e : Option (List Char)) :
    (generateDescriptionFromImage info (.resp 200 (.ok (.obj e (some []))))).2.2 =
      .error emptyResponseMsg ∧
    (generateDescriptionFromImage info (.resp 200 (.ok (.obj e none)))).2.2 =
      .error emptyResponseMsg := by
  constructor <;>
    simp [generateDescriptionFromImage, tryFetch, jsGetResponseField,
      show statusOk 200 = true from rfl]

/-- C8: a successful (HTTP 200) response with a non-empty description field
returns exactly that text with leading and trailing whitespace removed and
nothing else; in particular the field `  A cat on a mat.  ` yields
`A cat on a mat.`. -/
theorem generateDescription_success (info : ImageInfo) (e : Option (List Char))
    (c : Char) (cs : List Char) :
    (generateDescriptionFromImage info (.resp 200 (.ok (.obj e (some (c :: cs)))))).2.2 =
      .ok (jsTrim (c :: cs)) ∧
    (generateDescriptionFromImage info
        (.resp 200 (.ok (.obj e (some "  A cat on a mat.  ".data))))).2.2 =
      .ok "A cat on a mat.".data := by
  have hcons : "  A cat on a mat.  ".data = ' ' :: " A cat on a mat.  ".data := rfl
  have htrim : jsTrim (' ' :: " A cat on a mat.  ".data) = "A cat on a mat.".data := by decide
  constructor <;>
    simp [generateDescriptionFromImage, tryFetch, jsGetResponseField, hcons, htrim,
      show statusOk 200 = true from rfl]

/-- C9 counterexample: an unexpected failure that is itself an `Error` — a
success status whose body fails to parse, so that `response.json()` throws
a `SyntaxError` — is re-thrown with its original message, not wrapped with
the generic unknown-error message the claim requires. -/
theorem generateDescription_unknown_counterexample :
    (generateDescriptionFromImage sampleInfo
        (.resp 200 (.error "Unexpected end of JSON input".data))).2.2 =
      .error "Unexpected end of JSON input".data ∧
    "Unexpected end of JSON input".data ≠ genericErrorMsg := by
  constructor
  · simp [generateDescriptionFromImage, tryFetch, show statusOk 200 = true from rfl]
  · decide

/-- C9 amended: every unexpected failure is logged via `console.error`;
a failure that is an `Error` instance (such as a parse failure of a
success-status body, or the request rejecting with a non-`TypeError`
`Error`) is re-thrown with its original message preserved, and only a
thrown value that is not an `Error` is wrapped with the generic message. -/
theorem generateDescription_unknown_amended (info : ImageInfo) (m : List Char) :
    ((generateDescriptionFromImage info (.resp 200 (.error m))).2.2 = .error m ∧
      (generateDescriptionFromImage info (.resp 200 (.error m))).2.1 = [JsError.jsError m]) ∧
    ((generateDescriptionFromImage info (.reject (.jsError m))).2.2 = .error m ∧
      (generateDescriptionFromImage info (.reject (.jsError m))).2.1 = [JsError.jsError m]) ∧
    ((generateDescriptionFromImage info (.reject .nonError)).2.2 = .error genericErrorMsg ∧
      (generateDescriptionFromImage info (.reject .nonError)).2.1 = [JsError.nonError]) := by
  refine ⟨⟨?_, ?_⟩, ⟨?_, ?_⟩, ⟨?_, ?_⟩⟩ <;>
    simp [generateDescriptionFromImage, tryFetch, show statusOk 200 = true from rfl]

/-- C10 counterexample: a non-success status whose body parses as the valid
JSON value `null` (which has no `error` field) does not produce a message
containing `undefined`: reading `errorBody.error` throws a `TypeError`,
which the catch block classifies as a connectivity failure. -/
theorem serverError_nullBody_counterexample :
    (generateDescriptionFromImage sampleInfo (.resp 500 (.ok Json.null))).2.2 =
      .error connectivityMsg ∧
    occurs "undefined".data connectivityMsg = false := by
  constructor
  · simp [generateDescriptionFromImage, tryFetch, jsGetErrorField,
      show statusOk 500 = false from rfl]
  · decide

/-- C10 amended: on a non-success status whose body parses as a valid JSON
object lacking the `error` field, the server-error message interpolates the
missing field and contains the literal text `undefined`; when the body is
the JSON value `null`, the property access itself throws a `TypeError` and
the connectivity message is reported instead. -/
theorem serverError_missingField_amended (info : ImageInfo) (status : Nat)
    (r : Option (List Char)) (h : statusOk status = false) :
    (generateDescriptionFromImage info (.resp status (.ok (.obj none r)))).2.2 =
      .error (serverErrorMsg status none) ∧
    occurs "undefined".data (serverErrorMsg status none) = true ∧
    (generateDescriptionFromImage info (.resp status (.ok Json.null))).2.2 =
      .error connectivityMsg := by
  refine ⟨?_, occurs_serverErrorMsg_undef status, ?_⟩ <;>
    simp [generateDescriptionFromImage, tryFetch, jsGetErrorField, h]

/-- Witness for the amended C10 at a concrete 404 response. -/
theorem serverError_missingField_amended_witness :
    statusOk 404 = false ∧
    (generateDescriptionFromImage sampleInfo (.resp 404 (.ok (.obj none none)))).2.2 =
      .error (serverErrorMsg 404 none) ∧
    occurs "undefined".data (serverErrorMsg 404 none) = true ∧
    (generateDescriptionFromImage sampleInfo (.resp 404 (.ok Json.null))).2.2 =
      .error connectivityMsg := by
  have h := serverError_missingField_amended sampleInfo 404 none (by decide)
  exact ⟨by decide, h.1, h.2.1, h.2.2⟩

end Visionary
